import Mathlib

/-!
# Verification of the MultiAgentDev configuration-governance engine

Shallow embedding of the repository's database layer (Supabase SQL
migrations) and realtime-sync hook, with theorems settling the frozen
claims about the specification.

Modelled source artifacts:
* `supabase/migrations/FULL_SETUP.sql` — tables `profiles`, `agents`,
  `agent_config_history`, trigger function `track_agent_config_change`,
  signup trigger `handle_new_user`.
* `supabase/migrations/20260127_soft_delete_profiles.sql` — `deleted_at`
  column, `soft_delete_user`, `restore_user`, `is_user_active`.
* `supabase/migrations/20260128_sub_agents.sql` (incl. the consolidated
  RLS fix) — `sub_agents` table, final RLS policies `agents_select`,
  `agents_insert_admin`, `agents_update_admin`, `agents_delete_admin`,
  helper functions `get_my_org`, `am_i_admin`, `am_i_active`.
* `20260126_admin_panel_and_users.sql` — `agent_config_history` table and
  its RLS policies, notably `"Admins can insert config history"`.
* frontend `useAgentsRealtime` hook — realtime reconciliation reducer.

UUIDs are modelled as `Nat`, timestamps as `Nat`, SQL `FLOAT` as `Rat`
(only order comparisons on it matter here), nullable columns as `Option`.
-/

namespace MultiAgentDev

/-- The `app_role` enum: `CREATE TYPE app_role AS ENUM ('admin', 'user')`. -/
inductive AppRole where
  | admin : AppRole
  | user : AppRole
deriving DecidableEq, Repr

/-- A row of the `profiles` table (columns relevant to governance):
`id`, `organization_id` (nullable FK), `email`, `full_name`,
`role app_role DEFAULT 'user' NOT NULL`, and the `deleted_at TIMESTAMPTZ
DEFAULT NULL` column added by the soft-delete migration. -/
structure Profile where
  id : Nat
  organization_id : Option Nat
  email : Option String
  full_name : Option String
  role : AppRole
  deleted_at : Option Nat
deriving DecidableEq, Repr

/-- The `capabilities` JSONB bag on agents and sub-agents, with the four
boolean flags used by the seed data and defaults. -/
structure Capabilities where
  rag_enabled : Bool
  web_search : Bool
  code_execution : Bool
  image_generation : Bool
deriving DecidableEq, Repr

/-- The JSON values that `jsonb_build_object` puts into the audit
diff / snapshot (`NULL`, text, numbers, booleans, and the nested
`capabilities` object). -/
inductive JVal where
  | jnull : JVal
  | jstr : String → JVal
  | jnum : Rat → JVal
  | jbool : Bool → JVal
  | jcaps : Capabilities → JVal
deriving DecidableEq, Repr

/-- Lift a nullable text column into a `JVal`. -/
def JVal.ofStr? : Option String → JVal
  | none => JVal.jnull
  | some s => JVal.jstr s

/-- Lift a nullable numeric column into a `JVal`. -/
def JVal.ofNum? : Option Rat → JVal
  | none => JVal.jnull
  | some q => JVal.jnum q

/-- Lift a nullable integer column into a `JVal`. -/
def JVal.ofInt? : Option Int → JVal
  | none => JVal.jnull
  | some n => JVal.jnum (n : Rat)

/-- A row of the `agents` table (governance-relevant columns).
`temperature FLOAT DEFAULT 0.7 CHECK (temperature >= 0 AND temperature <= 2)`,
`max_tokens INTEGER DEFAULT 2048 CHECK (max_tokens > 0 AND max_tokens <= 128000)`,
`version INTEGER DEFAULT 1`, `modified_by UUID` (nullable FK to profiles). -/
structure Agent where
  id : Nat
  organization_id : Nat
  name : String
  slug : String
  role : String
  description : Option String
  icon : Option String
  system_prompt : Option String
  is_active : Bool
  ai_model : Option String
  temperature : Option Rat
  max_tokens : Option Int
  welcome_message : Option String
  capabilities : Capabilities
  category : Option String
  version : Option Nat
  modified_by : Option Nat
deriving DecidableEq, Repr

/-- A row of the `sub_agents` table.  Note the columns it has — and the
ones it does not: there is no `version` counter on sub-agents. -/
structure SubAgent where
  id : Nat
  parent_agent_id : Nat
  organization_id : Nat
  name : String
  slug : String
  role : String
  description : Option String
  icon : Option String
  ai_model : Option String
  temperature : Option Rat
  max_tokens : Option Int
  system_prompt : Option String
  capabilities : Capabilities
  is_active : Bool
  created_by : Option Nat
  modified_by : Option Nat
deriving DecidableEq, Repr

/-- The column list of `CREATE TABLE sub_agents` in
`20260128_sub_agents.sql`, in source order. -/
def subAgentsColumns : List String :=
  ["id", "parent_agent_id", "organization_id", "name", "slug", "role",
   "description", "icon", "ai_model", "temperature", "max_tokens",
   "system_prompt", "capabilities", "is_active", "created_at",
   "updated_at", "created_by", "modified_by"]

/-- A row of the `agent_config_history` table: `agent_id` (FK to agents,
`ON DELETE CASCADE`), `changed_by` (FK to profiles, `NOT NULL`),
`changes JSONB NOT NULL` (diff map `field ↦ (old, new)`), and
`previous_config JSONB NOT NULL` (snapshot before the mutation). -/
structure AuditRecord where
  agent_id : Nat
  changed_by : Nat
  changes : List (String × JVal × JVal)
  previous_config : List (String × JVal)
deriving DecidableEq, Repr

/-! ## Tenant/role resolution and RLS policy predicates

These model the *final* policy state, i.e. the consolidated RLS fix in
`20260128_sub_agents.sql`, which drops every earlier policy on `agents`
and recreates `agents_select` / `agents_insert_admin` /
`agents_update_admin` / `agents_delete_admin` on top of the
SECURITY DEFINER helpers `get_my_org`, `am_i_admin`, `am_i_active`. -/

/-- Primary-key lookup in `profiles` (`WHERE id = auth.uid()`). -/
def lookupProfile (profiles : List Profile) (uid : Nat) : Option Profile :=
  profiles.find? (fun p => p.id == uid)

/-- SQL function `public.get_my_org()`:
`SELECT organization_id FROM profiles WHERE id = auth.uid()`.
Returns `none` when there is no such profile *or* its
`organization_id` is NULL.  Note: no `deleted_at` filter. -/
def get_my_org (profiles : List Profile) (uid : Nat) : Option Nat :=
  (lookupProfile profiles uid).bind (fun p => p.organization_id)

/-- SQL function `public.am_i_admin()`:
`EXISTS (SELECT 1 FROM profiles WHERE id = auth.uid() AND role = 'admin'
AND deleted_at IS NULL)`. -/
def am_i_admin (profiles : List Profile) (uid : Nat) : Bool :=
  profiles.any (fun p =>
    p.id == uid && p.role == AppRole.admin && p.deleted_at == none)

/-- SQL function `public.am_i_active()`:
`EXISTS (SELECT 1 FROM profiles WHERE id = auth.uid() AND deleted_at IS
NULL)`.  (Defined in the consolidated fix; used by none of the final
policies.) -/
def am_i_active (profiles : List Profile) (uid : Nat) : Bool :=
  profiles.any (fun p => p.id == uid && p.deleted_at == none)

/-- SQL function `public.is_user_active(user_id)` from the soft-delete migration. -/
def is_user_active (profiles : List Profile) (user_id : Nat) : Bool :=
  profiles.any (fun p => p.id == user_id && p.deleted_at == none)

/-- Final policy `agents_select` (`FOR SELECT`):
`USING (organization_id = public.get_my_org())`.
SQL three-valued logic: a NULL `get_my_org()` makes the comparison
not-true, so the row is invisible. -/
def agents_select (profiles : List Profile) (uid : Nat) (a : Agent) : Bool :=
  get_my_org profiles uid == some a.organization_id

/-- Final policy `agents_insert_admin` (`WITH CHECK`):
`organization_id = public.get_my_org() AND public.am_i_admin()`. -/
def agents_insert_admin (profiles : List Profile) (uid : Nat) (a : Agent) : Bool :=
  (get_my_org profiles uid == some a.organization_id) && am_i_admin profiles uid

/-- Final policy `agents_update_admin` (`USING`, identical `WITH CHECK`):
`organization_id = public.get_my_org() AND public.am_i_admin()`. -/
def agents_update_admin (profiles : List Profile) (uid : Nat) (a : Agent) : Bool :=
  (get_my_org profiles uid == some a.organization_id) && am_i_admin profiles uid

/-- Final policy `agents_delete_admin` (`USING`):
`organization_id = public.get_my_org() AND public.am_i_admin()`. -/
def agents_delete_admin (profiles : List Profile) (uid : Nat) (a : Agent) : Bool :=
  (get_my_org profiles uid == some a.organization_id) && am_i_admin profiles uid

/-- Policy `"Admins can insert config history"` on `agent_config_history`
(`FOR INSERT WITH CHECK`): `EXISTS (SELECT 1 FROM profiles WHERE
profiles.id = auth.uid() AND profiles.role = 'admin')`.  This policy is
created in `20260126_admin_panel_and_users.sql` and is *not* dropped by
the consolidated fix, so it is part of the final policy state. -/
def admins_can_insert_config_history (profiles : List Profile) (uid : Nat) : Bool :=
  profiles.any (fun p => p.id == uid && p.role == AppRole.admin)

/-- A `get(entityId)` read of one agent through PostgREST under RLS:
the row is returned iff it exists and `agents_select` admits it;
otherwise the caller sees NotFound (modelled as `none`). -/
def getAgent (profiles : List Profile) (uid : Nat)
    (agents : List Agent) (aid : Nat) : Option Agent :=
  agents.find? (fun a => a.id == aid && agents_select profiles uid a)

/-! ## Soft-delete lifecycle (`20260127_soft_delete_profiles.sql`) -/

/-- SQL function `public.soft_delete_user(target_user_id)`:
`UPDATE profiles SET deleted_at = NOW() WHERE id = target_user_id AND
deleted_at IS NULL; RETURN FOUND;`
Returns the `FOUND` flag together with the updated table. -/
def soft_delete_user (now : Nat) (profiles : List Profile) (target : Nat) :
    Bool × List Profile :=
  (profiles.any (fun p => p.id == target && p.deleted_at == none),
   profiles.map (fun p =>
     if p.id == target && p.deleted_at == none then
       { p with deleted_at := some now }
     else p))

/-- SQL function `public.restore_user(target_user_id)`:
`UPDATE profiles SET deleted_at = NULL WHERE id = target_user_id AND
deleted_at IS NOT NULL; RETURN FOUND;` -/
def restore_user (profiles : List Profile) (target : Nat) :
    Bool × List Profile :=
  (profiles.any (fun p => p.id == target && !(p.deleted_at == none)),
   profiles.map (fun p =>
     if p.id == target && !(p.deleted_at == none) then
       { p with deleted_at := none }
     else p))

/-! ## Signup path (`handle_new_user` trigger, FULL_SETUP.sql) -/

/-- The slice of an `auth.users` row the signup trigger reads. -/
structure AuthUser where
  id : Nat
  email : Option String
  raw_meta_full_name : Option String
deriving DecidableEq, Repr

/-- Trigger function `public.handle_new_user()`:
`INSERT INTO public.profiles (id, email, full_name, role) VALUES
(NEW.id, NEW.email, COALESCE(NEW.raw_user_meta_data->>'full_name',
NEW.email), 'user');`
Unlisted columns take their table defaults: `organization_id` NULL,
`deleted_at` NULL. -/
def handle_new_user (u : AuthUser) : Profile :=
  { id := u.id
    organization_id := none
    email := u.email
    full_name := match u.raw_meta_full_name with
      | some s => some s
      | none => u.email
    role := AppRole.user
    deleted_at := none }

/-! ## Audit trail trigger (`track_agent_config_change`, FULL_SETUP.sql)

`CREATE TRIGGER track_agent_changes BEFORE UPDATE ON agents FOR EACH ROW
EXECUTE FUNCTION public.track_agent_config_change();` -/

/-- The `prev_config` snapshot built by the trigger:
`jsonb_build_object('name', OLD.name, 'role', OLD.role, …)` over the ten
snapshotted fields. -/
def buildPrevConfig (old : Agent) : List (String × JVal) :=
  [("name", JVal.jstr old.name),
   ("role", JVal.jstr old.role),
   ("description", JVal.ofStr? old.description),
   ("system_prompt", JVal.ofStr? old.system_prompt),
   ("ai_model", JVal.ofStr? old.ai_model),
   ("temperature", JVal.ofNum? old.temperature),
   ("max_tokens", JVal.ofInt? old.max_tokens),
   ("welcome_message", JVal.ofStr? old.welcome_message),
   ("capabilities", JVal.jcaps old.capabilities),
   ("is_active", JVal.jbool old.is_active)]

/-- The `changes_json` diff built by the trigger: one entry per
`IF OLD.x IS DISTINCT FROM NEW.x` branch, in source order.  Exactly six
fields are diffed — `name`, `role`, `system_prompt` (both sides truncated
with `LEFT(…, 100)`), `ai_model`, `temperature`, `is_active`;
`description`, `max_tokens`, `welcome_message` and `capabilities` are
snapshotted but never diffed. -/
def buildChanges (old new : Agent) : List (String × JVal × JVal) :=
  (if old.name ≠ new.name then
     [("name", JVal.jstr old.name, JVal.jstr new.name)] else []) ++
  (if old.role ≠ new.role then
     [("role", JVal.jstr old.role, JVal.jstr new.role)] else []) ++
  (if old.system_prompt ≠ new.system_prompt then
     [("system_prompt", JVal.ofStr? (old.system_prompt.map (fun s => s.take 100)),
       JVal.ofStr? (new.system_prompt.map (fun s => s.take 100)))] else []) ++
  (if old.ai_model ≠ new.ai_model then
     [("ai_model", JVal.ofStr? old.ai_model, JVal.ofStr? new.ai_model)] else []) ++
  (if old.temperature ≠ new.temperature then
     [("temperature", JVal.ofNum? old.temperature, JVal.ofNum? new.temperature)] else []) ++
  (if old.is_active ≠ new.is_active then
     [("is_active", JVal.jbool old.is_active, JVal.jbool new.is_active)] else [])

/-- Trigger function `public.track_agent_config_change()` as a `BEFORE UPDATE` row trigger:
given the `OLD` and (caller-proposed) `NEW` rows, returns the row that is
actually stored together with the audit record inserted, if any.
`IF changes_json != '{}'::jsonb AND NEW.modified_by IS NOT NULL THEN`
insert a history row and set
`NEW.version := COALESCE(OLD.version, 0) + 1`. -/
def track_agent_config_change (old new : Agent) : Agent × Option AuditRecord :=
  match buildChanges old new, new.modified_by with
  | [], _ => (new, none)
  | _ :: _, none => (new, none)
  | c :: cs, some uid =>
      ({ new with version := some (old.version.getD 0 + 1) },
       some { agent_id := new.id
              changed_by := uid
              changes := c :: cs
              previous_config := buildPrevConfig old })

/-! ## Check constraints, uniqueness and the mutation operations -/

/-- The engine's caller-visible error taxonomy (spec §7). -/
inductive GovError where
  | notFound : GovError
  | denied : GovError
  | conflict : GovError
  | invalid : GovError
deriving DecidableEq, Repr

/-- The two `CHECK` constraints on `agents`:
`temperature >= 0 AND temperature <= 2` and
`max_tokens > 0 AND max_tokens <= 128000`.  A SQL `CHECK` passes on NULL. -/
def agents_row_check (a : Agent) : Bool :=
  (match a.temperature with
   | none => true
   | some t => decide (0 ≤ t) && decide (t ≤ 2)) &&
  (match a.max_tokens with
   | none => true
   | some m => decide (0 < m) && decide (m ≤ 128000))

/-- The identical `CHECK` constraints on `sub_agents`. -/
def sub_agents_row_check (sa : SubAgent) : Bool :=
  (match sa.temperature with
   | none => true
   | some t => decide (0 ≤ t) && decide (t ≤ 2)) &&
  (match sa.max_tokens with
   | none => true
   | some m => decide (0 < m) && decide (m ≤ 128000))

/-- Constraint `UNIQUE(organization_id, slug)` on `agents`: does inserting
`(org, slug)` collide with an existing row? -/
def agents_slug_conflict (agents : List Agent) (org : Nat) (slug : String) : Bool :=
  agents.any (fun b => b.organization_id == org && b.slug == slug)

/-- Constraint `UNIQUE(parent_agent_id, slug)` on `sub_agents`. -/
def sub_agents_slug_conflict (subs : List SubAgent) (parent : Nat) (slug : String) : Bool :=
  subs.any (fun b => b.parent_agent_id == parent && b.slug == slug)

/-- An `INSERT` into `agents` as the storage engine executes it: the
`CHECK` constraints are enforced at tuple formation (before the unique
index is consulted), then the `UNIQUE(organization_id, slug)` index.
On success the row is stored; on violation the table is unchanged and
the caller sees `Invalid` resp. `Conflict`. -/
def insertAgentRow (agents : List Agent) (a : Agent) :
    Except GovError (List Agent) :=
  if agents_row_check a = false then Except.error GovError.invalid
  else if agents_slug_conflict agents a.organization_id a.slug then
    Except.error GovError.conflict
  else Except.ok (a :: agents)

/-- An `INSERT` into `sub_agents`, with its `CHECK` constraints and
`UNIQUE(parent_agent_id, slug)` index. -/
def insertSubAgentRow (subs : List SubAgent) (sa : SubAgent) :
    Except GovError (List SubAgent) :=
  if sub_agents_row_check sa = false then Except.error GovError.invalid
  else if sub_agents_slug_conflict subs sa.parent_agent_id sa.slug then
    Except.error GovError.conflict
  else Except.ok (sa :: subs)

/-- An `UPDATE` of one `agents` row: look the row up by primary key,
enforce the `CHECK` constraints on the proposed new row, then run the
`track_agent_changes` BEFORE-UPDATE trigger, which may rewrite
`NEW.version` and emit an audit record.  On a constraint violation the
table is unchanged and the caller sees `Invalid`. -/
def updateAgentRow (agents : List Agent) (aid : Nat) (proposed : Agent) :
    Except GovError (List Agent × Option AuditRecord) :=
  match agents.find? (fun b => b.id == aid) with
  | none => Except.error GovError.notFound
  | some old =>
      if agents_row_check proposed = false then Except.error GovError.invalid
      else
        let r := track_agent_config_change old proposed
        Except.ok
          (agents.map (fun b => if b.id == aid then r.1 else b), r.2)

/-! ## The engine as a transition system

`EngineState` is the content of the governed tables.  `AppStep` is one
*accepted* mutation as the application issues it (PostgREST `INSERT` /
`UPDATE` / `DELETE` on `agents` and `sub_agents`): a create takes the
column defaults for `version`, an update never lists `version` in its
`SET` clause (the frontend's `AgentUpdate` payload has no such field),
and the database enforces the `CHECK` constraints, primary keys and the
cascading foreign keys throughout.  `Step` additionally contains the
*direct* `INSERT` into `agent_config_history` that the RLS policy
`"Admins can insert config history"` grants to admin callers — RLS
gating of who may perform the other operations is modelled separately by
the policy predicates above, since it does not affect row contents. -/

structure EngineState where
  agents : List Agent
  subs : List SubAgent
  history : List AuditRecord
deriving DecidableEq, Repr

/-- Number of audit records referencing agent `aid`. -/
def auditCount (s : EngineState) (aid : Nat) : Nat :=
  (s.history.filter (fun r => r.agent_id == aid)).length

/-- One accepted application-level mutation. -/
inductive AppStep : EngineState → EngineState → Prop
  | createAgent (s : EngineState) (a : Agent) :
      a.version = some 1 →
      (∀ b ∈ s.agents, b.id ≠ a.id) →
      agents_slug_conflict s.agents a.organization_id a.slug = false →
      agents_row_check a = true →
      AppStep s { s with agents := a :: s.agents }
  | updateAgent (s : EngineState) (old proposed : Agent) :
      old ∈ s.agents →
      proposed.id = old.id →
      proposed.version = old.version →
      agents_row_check proposed = true →
      AppStep s
        { s with
          agents := s.agents.map (fun b =>
            if b.id == old.id then (track_agent_config_change old proposed).1 else b)
          history := s.history ++ (track_agent_config_change old proposed).2.toList }
  | deleteAgent (s : EngineState) (aid : Nat) :
      AppStep s
        { agents := s.agents.filter (fun b => !(b.id == aid))
          subs := s.subs.filter (fun sa => !(sa.parent_agent_id == aid))
          history := s.history.filter (fun r => !(r.agent_id == aid)) }
  | createSubAgent (s : EngineState) (sa : SubAgent) :
      (∀ b ∈ s.subs, b.id ≠ sa.id) →
      sub_agents_slug_conflict s.subs sa.parent_agent_id sa.slug = false →
      sub_agents_row_check sa = true →
      AppStep s { s with subs := sa :: s.subs }
  | updateSubAgent (s : EngineState) (old proposed : SubAgent) :
      old ∈ s.subs →
      proposed.id = old.id →
      sub_agents_row_check proposed = true →
      AppStep s
        { s with subs := s.subs.map (fun b =>
            if b.id == old.id then proposed else b) }
  | deleteSubAgent (s : EngineState) (said : Nat) :
      AppStep s { s with subs := s.subs.filter (fun b => !(b.id == said)) }

/-- One caller-invocable operation of the full system: an accepted
application-level mutation, or the direct `INSERT` into
`agent_config_history` that RLS permits to admin callers (subject to the
table's foreign key on `agent_id`). -/
inductive Step (profiles : List Profile) : EngineState → EngineState → Prop
  | app {s s' : EngineState} :
      AppStep s s' → Step profiles s s'
  | insertHistory (s : EngineState) (uid : Nat) (r : AuditRecord) :
      admins_can_insert_config_history profiles uid = true →
      (∃ a ∈ s.agents, a.id = r.agent_id) →
      Step profiles s { s with history := s.history ++ [r] }

/-- The empty database the migrations start from. -/
def initState : EngineState := { agents := [], subs := [], history := [] }

/-- The structural invariant the application-level operations maintain:
agent primary keys are unique, every audit record references an existing
agent, and each agent's version counter is one more than the number of
audit records referencing it. -/
def goodState (s : EngineState) : Prop :=
  (s.agents.map (fun a => a.id)).Nodup ∧
  (∀ r ∈ s.history, r.agent_id ∈ s.agents.map (fun a => a.id)) ∧
  (∀ a ∈ s.agents, ∃ v, a.version = some v ∧ 1 ≤ v ∧ auditCount s a.id = v - 1)

/-! ## Realtime reconciliation (`useAgentsRealtime`, frontend hook)

The hook subscribes to `postgres_changes` on `agents` filtered by
`organization_id` and folds each payload into its local agent list. -/

/-- A realtime payload: `payload.eventType` with `payload.new` for
INSERT/UPDATE and `payload.old` for DELETE. -/
inductive RealtimeEvent where
  | insertEv : Agent → RealtimeEvent
  | updateEv : Agent → RealtimeEvent
  | deleteEv : Agent → RealtimeEvent
deriving DecidableEq, Repr

/-- The reducer in the `postgres_changes` callback of `useAgentsRealtime`:
* INSERT — `if (!activeOnly || newAgent.is_active) setAgents(prev ⧺ [newAgent])`;
* UPDATE — if `activeOnly` and the agent became inactive, filter it out;
  if `activeOnly`, the agent is active and not yet present, append it;
  otherwise replace it in place;
* DELETE — filter the agent out by id. -/
def applyRealtimeEvent (activeOnly : Bool) (prev : List Agent) :
    RealtimeEvent → List Agent
  | RealtimeEvent.insertEv a =>
      if !activeOnly || a.is_active then prev ++ [a] else prev
  | RealtimeEvent.updateEv a =>
      if activeOnly && !a.is_active then
        prev.filter (fun b => !(b.id == a.id))
      else if activeOnly && a.is_active && !(prev.any (fun b => b.id == a.id)) then
        prev ++ [a]
      else
        prev.map (fun b => if b.id == a.id then a else b)
  | RealtimeEvent.deleteEv a =>
      prev.filter (fun b => !(b.id == a.id))

/-! ## Concrete fixtures (for witnesses and counterexamples) -/

/-- The default `capabilities` JSONB on agents. -/
def defaultCapabilities : Capabilities :=
  { rag_enabled := true, web_search := false
    code_execution := false, image_generation := false }

/-- An active admin of organization 10. -/
def demoAdmin : Profile :=
  { id := 1, organization_id := some 10, email := some "admin@2b.com"
    full_name := some "Admin 2B", role := AppRole.admin, deleted_at := none }

/-- A soft-deleted member of organization 10 (`deleted_at` set). -/
def demoDeletedMember : Profile :=
  { id := 2, organization_id := some 10, email := some "user@2b.com"
    full_name := some "Usuario Demo", role := AppRole.user, deleted_at := some 99 }

/-- An active member of organization 20. -/
def demoOtherOrgMember : Profile :=
  { id := 3, organization_id := some 20, email := none
    full_name := none, role := AppRole.user, deleted_at := none }

/-- The profiles table fixture. -/
def demoProfiles : List Profile := [demoAdmin, demoDeletedMember, demoOtherOrgMember]

/-- An agent of organization 10 with the column defaults. -/
def demoAgent : Agent :=
  { id := 7, organization_id := 10, name := "Agent Copy", slug := "agent-copy"
    role := "Copywriting Specialist", description := none, icon := some "🤖"
    system_prompt := none, is_active := true, ai_model := some "gpt-4o-mini"
    temperature := some (⟨7, 10, by decide, by decide⟩ : Rat), max_tokens := some 2048
    welcome_message := none, capabilities := defaultCapabilities
    category := some "general", version := some 1, modified_by := none }

/-- A second agent of organization 10, initially inactive. -/
def demoAgentB : Agent :=
  { demoAgent with id := 8, slug := "agent-ads", name := "Agent ADS", is_active := false }

/-- The engine state holding just `demoAgent`. -/
def demoStateOneAgent : EngineState :=
  { agents := [demoAgent], subs := [], history := [] }

/-- An audit record as an admin could insert it directly. -/
def demoDirectRecord : AuditRecord :=
  { agent_id := 7, changed_by := 1
    changes := [("name", JVal.jstr "Agent Copy", JVal.jstr "Agent Copy v2")]
    previous_config := buildPrevConfig demoAgent }

/-- A proposed update of `demoAgent`: rename it, acting as admin 1.
The `version` field is untouched — the frontend `AgentUpdate` payload has
no `version` member. -/
def demoProposed : Agent :=
  { demoAgent with name := "Agent Copy v2", modified_by := some 1 }

/-- An agent row violating the temperature bound. -/
def demoInvalidAgent : Agent :=
  { demoAgent with id := 9, slug := "agent-bad", temperature := some 3 }

/-- Fixture: `demoAgent` flipped inactive, as a realtime UPDATE payload carries it. -/
def demoAgentOff : Agent := { demoAgent with is_active := false }

/-- The state obtained from `demoStateOneAgent` by an admin's *direct*
insert into `agent_config_history`. -/
def demoStateDirectHistory : EngineState :=
  { agents := [demoAgent], subs := [], history := [demoDirectRecord] }

/-- A sub-agent of `demoAgent` with in-bounds parameters. -/
def demoSubAgent : SubAgent :=
  { id := 21, parent_agent_id := 7, organization_id := 10, name := "Sub Copy"
    slug := "sub-copy", role := "helper", description := none, icon := some "🔧"
    ai_model := some "gpt-4o-mini", temperature := some 1, max_tokens := some 2048
    system_prompt := none, capabilities := defaultCapabilities, is_active := true
    created_by := none, modified_by := none }

/-- A fresh agent row whose `(organization_id, slug)` collides with
`demoAgent`. -/
def demoSlugClash : Agent := { demoAgent with id := 11 }

/-!
# Theorems
-/

/-- Claim C10 — `handle_new_user` creates every automatically provisioned
principal with role `'user'` (member), no tenant assignment
(`organization_id` is NULL) and a NULL soft-delete timestamp; the
automatic signup path can never produce an admin, so admin status can
only arise from a later explicit role mutation. -/
theorem signup_profile_defaults (u : AuthUser) :
    (handle_new_user u).role = AppRole.user ∧
    (handle_new_user u).organization_id = none ∧
    (handle_new_user u).deleted_at = none ∧
    (handle_new_user u).role ≠ AppRole.admin :=
  ⟨rfl, rfl, rfl, fun h => AppRole.noConfusion h⟩

/-- Claim C1 — the claim says a principal with a non-null soft-delete
timestamp is denied every authorization and every resolve()-dependent
read returns NotFound.  The code violates this: the final `agents_select`
policy checks only `organization_id = get_my_org()`, and `get_my_org`
does not filter on `deleted_at`, so a soft-deleted member still reads the
agents of its tenant.  Evaluated at the failing input: `demoDeletedMember`
(profile 2, soft-deleted, organization 10) and `demoAgent` (organization
10) — `is_user_active`/`am_i_active` report the principal inactive, yet
the select policy admits the row and the read returns the agent's data
instead of NotFound. -/
theorem deactivated_member_still_reads_agents :
    demoDeletedMember.deleted_at ≠ none ∧
    is_user_active demoProfiles 2 = false ∧
    am_i_active demoProfiles 2 = false ∧
    agents_select demoProfiles 2 demoAgent = true ∧
    getAgent demoProfiles 2 [demoAgent] 7 = some demoAgent := by
  refine ⟨by decide, by decide, by decide, by decide, ?_⟩
  decide

/-- Claim C3 — for every update of an agent row (whose `SET` clause does not
touch `version`, as the application's `AgentUpdate` payload cannot): if at
least one tracked field changes and `NEW.modified_by` is non-null, the
trigger stores `version = previous + 1` and inserts exactly one audit
record; if no tracked field changes, or `modified_by` is null, the row
passes through unchanged — no version bump and no audit record. -/
theorem trigger_version_bump_contract (old proposed : Agent) (v : Nat)
    (hold : old.version = some v) (hprop : proposed.version = old.version) :
    (buildChanges old proposed ≠ [] → proposed.modified_by ≠ none →
      (track_agent_config_change old proposed).1.version = some (v + 1) ∧
      ∃ r, (track_agent_config_change old proposed).2 = some r) ∧
    ((buildChanges old proposed = [] ∨ proposed.modified_by = none) →
      (track_agent_config_change old proposed).1 = proposed ∧
      (track_agent_config_change old proposed).1.version = some v ∧
      (track_agent_config_change old proposed).2 = none) := by
  constructor
  · intro hne hmb
    rcases hc : buildChanges old proposed with _ | ⟨c, cs⟩
    · exact absurd hc hne
    · rcases hm : proposed.modified_by with _ | uid
      · exact absurd hm hmb
      · simp only [track_agent_config_change, hc, hm, hold]
        exact ⟨rfl, ⟨_, rfl⟩⟩
  · intro h
    rcases hc : buildChanges old proposed with _ | ⟨c, cs⟩
    · simp only [track_agent_config_change, hc]
      exact ⟨trivial, hprop.trans hold, trivial⟩
    · rcases hm : proposed.modified_by with _ | uid
      · simp only [track_agent_config_change, hc, hm]
        exact ⟨trivial, hprop.trans hold, trivial⟩
      · rcases h with h | h
        · rw [hc] at h; exact absurd h (by simp)
        · rw [hm] at h; exact absurd h (by simp)

/-- Claim C3 witness — updating `demoAgent`'s name as admin 1 bumps the
version from 1 to 2 and produces an audit record. -/
theorem trigger_version_bump_witness :
    (track_agent_config_change demoAgent demoProposed).1.version = some 2 ∧
    ∃ r, (track_agent_config_change demoAgent demoProposed).2 = some r :=
  (trigger_version_bump_contract demoAgent demoProposed 1 rfl rfl).1
    (by decide) (by decide)

/-- Claim C6 — the `useAgentsRealtime` reducer under an `activeOnly`
filter: an UPDATE that leaves the entity inactive removes it from the
subscriber's view (Remove, even though the row still exists); an UPDATE
that leaves it active puts it into the view (Upsert) while preserving
every unrelated entry; a DELETE removes it by id (Remove). -/
theorem activeOnly_reconciliation (prev : List Agent) (a : Agent) :
    (a.is_active = false →
      applyRealtimeEvent true prev (RealtimeEvent.updateEv a) =
        prev.filter (fun b => !(b.id == a.id))) ∧
    (a.is_active = true →
      a ∈ applyRealtimeEvent true prev (RealtimeEvent.updateEv a) ∧
      ∀ b ∈ prev, b.id ≠ a.id →
        b ∈ applyRealtimeEvent true prev (RealtimeEvent.updateEv a)) ∧
    applyRealtimeEvent true prev (RealtimeEvent.deleteEv a) =
      prev.filter (fun b => !(b.id == a.id)) := by
  refine ⟨?_, ?_, rfl⟩
  · intro ha
    simp [applyRealtimeEvent, ha]
  · intro ha
    by_cases hmem : prev.any (fun b => b.id == a.id)
    · have hred : applyRealtimeEvent true prev (RealtimeEvent.updateEv a) =
          prev.map (fun b => if b.id == a.id then a else b) := by
        simp [applyRealtimeEvent, ha, hmem]
      rw [hred]
      constructor
      · rcases List.any_eq_true.mp hmem with ⟨b, hb, hbid⟩
        exact List.mem_map.mpr ⟨b, hb, by simp [hbid]⟩
      · intro b hb hne
        refine List.mem_map.mpr ⟨b, hb, ?_⟩
        simp [hne]
    · have hred : applyRealtimeEvent true prev (RealtimeEvent.updateEv a) =
          prev ++ [a] := by
        simp [applyRealtimeEvent, ha, hmem]
      rw [hred]
      exact ⟨List.mem_append_right prev (List.mem_singleton.mpr rfl),
        fun b hb _ => List.mem_append_left [a] hb⟩

/-- Claim C6 witness — with `activeOnly = true`, an UPDATE turning
`demoAgent` inactive removes it from the cached list. -/
theorem activeOnly_reconciliation_witness :
    applyRealtimeEvent true [demoAgent] (RealtimeEvent.updateEv demoAgentOff) =
      [demoAgent].filter (fun b => !(b.id == demoAgentOff.id)) :=
  (activeOnly_reconciliation [demoAgent] demoAgentOff).1 rfl

/-- Claim C5 — tenant isolation of reads: if the caller's resolved
organization differs from an entity's organization, `agents_select`
denies the row and `get` returns NotFound; conversely any agent a `get`
does return belongs to the caller's resolved organization — so none of a
foreign tenant's data is ever returned, independent of role. -/
theorem cross_tenant_get_notFound (profiles : List Profile) (uid : Nat)
    (agents : List Agent) (aid : Nat) :
    ((∀ a ∈ agents, a.id = aid →
        get_my_org profiles uid ≠ some a.organization_id) →
      getAgent profiles uid agents aid = none) ∧
    (∀ a, getAgent profiles uid agents aid = some a →
      get_my_org profiles uid = some a.organization_id) := by
  constructor
  · intro h
    refine List.find?_eq_none.mpr (fun a ha hp => ?_)
    have hp' : a.id = aid ∧ get_my_org profiles uid = some a.organization_id := by
      simpa [agents_select] using hp
    exact h a ha hp'.1 hp'.2
  · intro a hfind
    have hp' : a.id = aid ∧ get_my_org profiles uid = some a.organization_id := by
      simpa [agents_select] using List.find?_some hfind
    exact hp'.2

/-- Claim C5 witness — profile 3 (organization 20) cannot read `demoAgent`
(organization 10): the `get` returns NotFound. -/
theorem cross_tenant_get_notFound_witness :
    getAgent demoProfiles 3 [demoAgent] 7 = none :=
  (cross_tenant_get_notFound demoProfiles 3 [demoAgent] 7).1 (by decide)

/-- Rows not matched by a conditional `UPDATE ... WHERE` predicate are
left exactly as they were. -/
lemma map_if_eq_self {α : Type} (p : α → Bool) (u : α → α) (l : List α)
    (h : ∀ x ∈ l, ¬ p x = true) :
    l.map (fun x => if p x then u x else x) = l := by
  induction l with
  | nil => rfl
  | cons a t ih =>
      simp only [List.map_cons]
      rw [if_neg (h a (List.mem_cons_self a t)),
        ih (fun x hx => h x (List.mem_cons_of_mem a hx))]

/-- Primary-key lookups commute with per-row updates that preserve `id`. -/
lemma lookupProfile_map (profiles : List Profile) (target : Nat)
    (f : Profile → Profile) (hid : ∀ x, (f x).id = x.id) :
    lookupProfile (profiles.map f) target = (lookupProfile profiles target).map f := by
  unfold lookupProfile
  have hfun : ((fun p => p.id == target) ∘ f) = (fun p : Profile => p.id == target) := by
    funext x
    simp [Function.comp, hid x]
  rw [List.find?_map, hfun]

/-- Claim C7 — the soft-delete lifecycle: `soft_delete_user` returns true
exactly when the target principal exists and is active, stamping its
`deleted_at` with the current time; when the principal is already
deactivated (or unknown) it returns false and changes nothing, and a
repeated call is a no-op returning false (idempotence).  `restore_user`
returns true exactly when the target is currently deactivated, clearing
`deleted_at`; otherwise it returns false and changes nothing. -/
theorem soft_delete_lifecycle (now : Nat) (profiles : List Profile) (target : Nat) :
    ((soft_delete_user now profiles target).1 = true ↔
      ∃ p ∈ profiles, p.id = target ∧ p.deleted_at = none) ∧
    ((soft_delete_user now profiles target).1 = false →
      (soft_delete_user now profiles target).2 = profiles) ∧
    (∀ p, lookupProfile profiles target = some p → p.deleted_at = none →
      lookupProfile (soft_delete_user now profiles target).2 target =
        some { p with deleted_at := some now }) ∧
    (∀ now2,
      soft_delete_user now2 (soft_delete_user now profiles target).2 target =
        (false, (soft_delete_user now profiles target).2)) ∧
    ((restore_user profiles target).1 = true ↔
      ∃ p ∈ profiles, p.id = target ∧ p.deleted_at ≠ none) ∧
    ((restore_user profiles target).1 = false →
      (restore_user profiles target).2 = profiles) ∧
    (∀ p, lookupProfile profiles target = some p → p.deleted_at ≠ none →
      lookupProfile (restore_user profiles target).2 target =
        some { p with deleted_at := none }) := by
  refine ⟨?_, ?_, ?_, ?_, ?_, ?_, ?_⟩
  · simp [soft_delete_user, List.any_eq_true]
  · intro hfalse
    exact map_if_eq_self _ _ _ (List.any_eq_false.mp hfalse)
  · intro p hp hact
    have hp' : profiles.find? (fun q => q.id == target) = some p := hp
    have hid := List.find?_some hp'
    have hcond : (p.id == target && p.deleted_at == none) = true := by
      simp [hid, hact]
    show lookupProfile (profiles.map (fun x =>
      if x.id == target && x.deleted_at == none then
        { x with deleted_at := some now } else x)) target = _
    rw [lookupProfile_map _ _ _ (fun x => by split <;> rfl), hp,
      Option.map_some', if_pos hcond]
  · intro now2
    have h2 : ((soft_delete_user now profiles target).2).any
        (fun p => p.id == target && p.deleted_at == none) = false := by
      refine List.any_eq_false.mpr (fun x hx => ?_)
      rcases List.mem_map.mp hx with ⟨y, hy, rfl⟩
      by_cases hc : (y.id == target && y.deleted_at == none) = true
      · rw [if_pos hc]
        simp
      · rw [if_neg hc]
        exact hc
    refine Prod.ext_iff.mpr ⟨h2, ?_⟩
    exact map_if_eq_self _ _ _ (List.any_eq_false.mp h2)
  · simp [restore_user, List.any_eq_true]
  · intro hfalse
    exact map_if_eq_self _ _ _ (List.any_eq_false.mp hfalse)
  · intro p hp hact
    have hp' : profiles.find? (fun q => q.id == target) = some p := hp
    have hid := List.find?_some hp'
    have hcond : (p.id == target && !(p.deleted_at == none)) = true := by
      simp [hid, hact]
    show lookupProfile (profiles.map (fun x =>
      if x.id == target && !(x.deleted_at == none) then
        { x with deleted_at := none } else x)) target = _
    rw [lookupProfile_map _ _ _ (fun x => by split <;> rfl), hp,
      Option.map_some', if_pos hcond]

/-- Claim C7 witness — deactivating the active admin (profile 1) at time 55
stamps its `deleted_at` with 55. -/
theorem soft_delete_lifecycle_witness :
    lookupProfile (soft_delete_user 55 demoProfiles 1).2 1 =
      some { demoAdmin with deleted_at := some 55 } :=
  (soft_delete_lifecycle 55 demoProfiles 1).2.2.1 demoAdmin (by decide) rfl

/-- The trigger's stored row is the proposed row, possibly with only its
`version` field rewritten. -/
lemma track_fst_cases (old proposed : Agent) :
    (track_agent_config_change old proposed).1 = proposed ∨
    (track_agent_config_change old proposed).1 =
      { proposed with version := some (old.version.getD 0 + 1) } := by
  rcases hc : buildChanges old proposed with _ | ⟨c, cs⟩ <;>
    rcases hm : proposed.modified_by with _ | uid <;>
      simp [track_agent_config_change, hc, hm]

/-- The trigger never changes the bounds-checked columns. -/
lemma track_fst_row_check (old proposed : Agent) :
    agents_row_check (track_agent_config_change old proposed).1 =
      agents_row_check proposed := by
  rcases track_fst_cases old proposed with h | h
  · rw [h]
  · rw [h]
    rfl

/-- The trigger never changes the row's primary key. -/
lemma track_fst_id (old proposed : Agent) :
    (track_agent_config_change old proposed).1.id = proposed.id := by
  rcases track_fst_cases old proposed with h | h
  · rw [h]
  · rw [h]

/-- Unpacking a passing `agents` `CHECK` into its arithmetic content. -/
lemma agents_row_check_spec (a : Agent) (h : agents_row_check a = true) :
    (∀ t, a.temperature = some t → 0 ≤ t ∧ t ≤ 2) ∧
    (∀ m, a.max_tokens = some m → 0 < m ∧ m ≤ 128000) := by
  unfold agents_row_check at h
  constructor
  · intro t ht
    rw [ht] at h
    simp at h
    exact h.1
  · intro m hm
    rw [hm] at h
    simp at h
    exact h.2

/-- Unpacking a passing `sub_agents` `CHECK`. -/
lemma sub_agents_row_check_spec (sa : SubAgent) (h : sub_agents_row_check sa = true) :
    (∀ t, sa.temperature = some t → 0 ≤ t ∧ t ≤ 2) ∧
    (∀ m, sa.max_tokens = some m → 0 < m ∧ m ≤ 128000) := by
  unfold sub_agents_row_check at h
  constructor
  · intro t ht
    rw [ht] at h
    simp at h
    exact h.1
  · intro m hm
    rw [hm] at h
    simp at h
    exact h.2

/-- Every caller-invocable operation keeps all stored rows inside the
`CHECK` bounds. -/
lemma step_preserves_bounds {profiles : List Profile} {s s' : EngineState}
    (hstep : Step profiles s s')
    (h : (∀ a ∈ s.agents, agents_row_check a = true) ∧
         (∀ sa ∈ s.subs, sub_agents_row_check sa = true)) :
    (∀ a ∈ s'.agents, agents_row_check a = true) ∧
    (∀ sa ∈ s'.subs, sub_agents_row_check sa = true) := by
  cases hstep with
  | app happ =>
      cases happ with
      | createAgent a hv hfresh hconf hcheck =>
          refine ⟨?_, h.2⟩
          intro b hb
          rcases List.mem_cons.mp hb with rfl | hb
          · exact hcheck
          · exact h.1 b hb
      | updateAgent old proposed hmem hid hv hcheck =>
          refine ⟨?_, h.2⟩
          intro b hb
          rcases List.mem_map.mp hb with ⟨c, hc, rfl⟩
          by_cases hcc : (c.id == old.id) = true
          · rw [if_pos hcc, track_fst_row_check]
            exact hcheck
          · rw [if_neg hcc]
            exact h.1 c hc
      | deleteAgent aid =>
          exact ⟨fun b hb => h.1 b (List.mem_of_mem_filter hb),
            fun sb hsb => h.2 sb (List.mem_of_mem_filter hsb)⟩
      | createSubAgent sa hfresh hconf hcheck =>
          refine ⟨h.1, ?_⟩
          intro b hb
          rcases List.mem_cons.mp hb with rfl | hb
          · exact hcheck
          · exact h.2 b hb
      | updateSubAgent old proposed hmem hid hcheck =>
          refine ⟨h.1, ?_⟩
          intro b hb
          rcases List.mem_map.mp hb with ⟨c, hc, rfl⟩
          by_cases hcc : (c.id == old.id) = true
          · rw [if_pos hcc]
            exact hcheck
          · rw [if_neg hcc]
            exact h.2 c hc
      | deleteSubAgent said =>
          exact ⟨h.1, fun b hb => h.2 b (List.mem_of_mem_filter hb)⟩
  | insertHistory uid r hpol hfk =>
      exact h

/-- Bounds hold in every reachable state. -/
lemma reachable_bounds (profiles : List Profile) (s : EngineState)
    (h : Relation.ReflTransGen (Step profiles) initState s) :
    (∀ a ∈ s.agents, agents_row_check a = true) ∧
    (∀ sa ∈ s.subs, sub_agents_row_check sa = true) := by
  induction h with
  | refl =>
      exact ⟨fun a ha => absurd ha (List.not_mem_nil a),
        fun sa hsa => absurd hsa (List.not_mem_nil sa)⟩
  | tail hsteps hstep ih =>
      exact step_preserves_bounds hstep ih

/-- Claim C9 — a create or update whose row violates the temperature or
max-tokens `CHECK` is rejected with `Invalid` (the table is unchanged,
since the operation returns no new table); consequently in every
reachable state every stored agent and sub-agent satisfies
`0 ≤ temperature ≤ 2` and `0 < max_tokens ≤ 128000` (for the values that
are present — SQL `CHECK` passes on NULL). -/
theorem bounds_enforcement :
    (∀ (agents : List Agent) (a : Agent), agents_row_check a = false →
      insertAgentRow agents a = Except.error GovError.invalid) ∧
    (∀ (agents : List Agent) (aid : Nat) (proposed : Agent),
      (∃ old, agents.find? (fun b => b.id == aid) = some old) →
      agents_row_check proposed = false →
      updateAgentRow agents aid proposed = Except.error GovError.invalid) ∧
    (∀ (subs : List SubAgent) (sa : SubAgent), sub_agents_row_check sa = false →
      insertSubAgentRow subs sa = Except.error GovError.invalid) ∧
    (∀ (profiles : List Profile) (s : EngineState),
      Relation.ReflTransGen (Step profiles) initState s →
      (∀ a ∈ s.agents,
        (∀ t, a.temperature = some t → 0 ≤ t ∧ t ≤ 2) ∧
        (∀ m, a.max_tokens = some m → 0 < m ∧ m ≤ 128000)) ∧
      (∀ sa ∈ s.subs,
        (∀ t, sa.temperature = some t → 0 ≤ t ∧ t ≤ 2) ∧
        (∀ m, sa.max_tokens = some m → 0 < m ∧ m ≤ 128000))) := by
  refine ⟨?_, ?_, ?_, ?_⟩
  · intro agents a h
    unfold insertAgentRow
    rw [if_pos h]
  · intro agents aid proposed hex hcheck
    rcases hex with ⟨old, hold⟩
    simp only [updateAgentRow, hold]
    rw [if_pos hcheck]
  · intro subs sa h
    unfold insertSubAgentRow
    rw [if_pos h]
  · intro profiles s hreach
    have hb := reachable_bounds profiles s hreach
    exact ⟨fun a ha => agents_row_check_spec a (hb.1 a ha),
      fun sa hsa => sub_agents_row_check_spec sa (hb.2 sa hsa)⟩

/-- Claim C9 witness — inserting an agent with temperature 3 is rejected
with `Invalid`. -/
theorem bounds_enforcement_witness :
    insertAgentRow [] demoInvalidAgent = Except.error GovError.invalid :=
  bounds_enforcement.1 [] demoInvalidAgent (by decide)

/-- Full case analysis of the trigger's output. -/
lemma track_snd_spec (old proposed : Agent) :
    ((track_agent_config_change old proposed).2 = none ∧
      (track_agent_config_change old proposed).1 = proposed) ∨
    (∃ r, (track_agent_config_change old proposed).2 = some r ∧
      r.agent_id = proposed.id ∧
      (track_agent_config_change old proposed).1 =
        { proposed with version := some (old.version.getD 0 + 1) }) := by
  rcases hc : buildChanges old proposed with _ | ⟨c, cs⟩
  · left
    constructor <;> simp [track_agent_config_change, hc]
  · rcases hm : proposed.modified_by with _ | uid
    · left
      constructor <;> simp [track_agent_config_change, hc, hm]
    · right
      refine ⟨{ agent_id := proposed.id, changed_by := uid,
                changes := c :: cs, previous_config := buildPrevConfig old },
        ?_, rfl, ?_⟩ <;> simp [track_agent_config_change, hc, hm]

/-- The empty database satisfies the structural invariant. -/
lemma goodState_init : goodState initState := by
  refine ⟨List.nodup_nil, ?_, ?_⟩ <;>
    exact fun x hx => absurd hx (List.not_mem_nil x)

/-- Replacing the row with the trigger's output leaves the id column of
the table unchanged. -/
lemma map_replace_ids (agents : List Agent) (old proposed : Agent)
    (hid : proposed.id = old.id) :
    (agents.map (fun b =>
      if b.id == old.id then (track_agent_config_change old proposed).1 else b)).map
        (fun a => a.id) = agents.map (fun a => a.id) := by
  rw [List.map_map]
  refine List.map_congr_left (fun b hb => ?_)
  by_cases hbb : (b.id == old.id) = true
  · show (if (b.id == old.id) = true then
      (track_agent_config_change old proposed).1 else b).id = b.id
    rw [if_pos hbb, track_fst_id, hid]
    exact (eq_of_beq hbb).symm
  · show (if (b.id == old.id) = true then
      (track_agent_config_change old proposed).1 else b).id = b.id
    rw [if_neg hbb]

/-- Audit-record counting, unfolded to the history list. -/
lemma auditCount_eq (s : EngineState) (aid : Nat) :
    auditCount s aid = (s.history.filter (fun r => r.agent_id == aid)).length := rfl

/-- Counting after appending no record. -/
lemma count_append_none (h : List AuditRecord) (aid : Nat) :
    ((h ++ (none : Option AuditRecord).toList).filter
      (fun r => r.agent_id == aid)).length =
    (h.filter (fun r => r.agent_id == aid)).length := by
  simp

/-- Counting after appending a matching record. -/
lemma count_append_match (h : List AuditRecord) (r : AuditRecord) (aid : Nat)
    (hm : (r.agent_id == aid) = true) :
    ((h ++ (some r).toList).filter (fun x => x.agent_id == aid)).length =
    (h.filter (fun x => x.agent_id == aid)).length + 1 := by
  simp [List.filter_append, hm]

/-- Counting after appending a non-matching record. -/
lemma count_append_other (h : List AuditRecord) (r : AuditRecord) (aid : Nat)
    (hm : (r.agent_id == aid) = false) :
    ((h ++ (some r).toList).filter (fun x => x.agent_id == aid)).length =
    (h.filter (fun x => x.agent_id == aid)).length := by
  simp [List.filter_append, hm]

/-- Every accepted application-level mutation preserves the structural
invariant. -/
lemma appStep_preserves_goodState {s s' : EngineState}
    (hstep : AppStep s s') (h : goodState s) : goodState s' := by
  obtain ⟨hnd, href, hcnt⟩ := h
  cases hstep with
  | createAgent a hv hfresh hconf hcheck =>
      have hnotin : a.id ∉ s.agents.map (fun x => x.id) := by
        intro hmem
        rcases List.mem_map.mp hmem with ⟨b, hb, hbid⟩
        exact hfresh b hb hbid
      refine ⟨List.nodup_cons.mpr ⟨hnotin, hnd⟩,
        fun r hr => List.mem_cons_of_mem _ (href r hr), ?_⟩
      intro b hb
      rcases List.mem_cons.mp hb with rfl | hb
      · refine ⟨1, hv, le_refl 1, ?_⟩
        rw [auditCount_eq]
        simp only [Nat.sub_self]
        rw [List.length_eq_zero, List.filter_eq_nil_iff]
        intro r hr hcon
        exact hnotin (eq_of_beq hcon ▸ href r hr)
      · exact hcnt b hb
  | updateAgent old proposed hmem hid hv hcheck =>
      have hids := map_replace_ids s.agents old proposed hid
      rcases track_snd_spec old proposed with ⟨ht2, ht1⟩ | ⟨r, ht2, hrid, ht1⟩
      · refine ⟨by rw [hids]; exact hnd, ?_, ?_⟩
        · intro rr hrr
          rw [ht2] at hrr
          simp only [Option.toList_none, List.append_nil] at hrr
          show rr.agent_id ∈ _
          rw [hids]
          exact href rr hrr
        · intro b hb
          rcases List.mem_map.mp hb with ⟨c, hc, rfl⟩
          by_cases hcc : (c.id == old.id) = true
          · rcases hcnt old hmem with ⟨v, hov, h1v, hocnt⟩
            rw [if_pos hcc, ht1]
            refine ⟨v, hv.trans hov, h1v, ?_⟩
            rw [auditCount_eq, ht2, count_append_none, hid]
            exact hocnt
          · rcases hcnt c hc with ⟨v, hcv, h1v, hccnt⟩
            rw [if_neg hcc]
            refine ⟨v, hcv, h1v, ?_⟩
            rw [auditCount_eq, ht2, count_append_none]
            exact hccnt
      · refine ⟨by rw [hids]; exact hnd, ?_, ?_⟩
        · intro rr hrr
          rw [ht2] at hrr
          rcases List.mem_append.mp hrr with hrr | hrr
          · show rr.agent_id ∈ _
            rw [hids]
            exact href rr hrr
          · have hre : rr = r := List.mem_singleton.mp hrr
            subst hre
            show rr.agent_id ∈ _
            rw [hids, hrid, hid]
            exact List.mem_map.mpr ⟨old, hmem, rfl⟩
        · intro b hb
          rcases List.mem_map.mp hb with ⟨c, hc, rfl⟩
          by_cases hcc : (c.id == old.id) = true
          · have hceq : c = old :=
              List.inj_on_of_nodup_map hnd hc hmem (eq_of_beq hcc)
            rcases hcnt old hmem with ⟨v, hov, h1v, hocnt⟩
            rw [if_pos hcc, ht1]
            refine ⟨v + 1, by simp [hov], Nat.le_succ_of_le h1v, ?_⟩
            rw [auditCount_eq]
            show (((s.history ++ (track_agent_config_change old proposed).2.toList).filter
              (fun x => x.agent_id == proposed.id))).length = v + 1 - 1
            rw [auditCount_eq] at hocnt
            rw [ht2, count_append_match s.history r proposed.id (by simp [hrid]),
              hid, hocnt, Nat.sub_add_cancel h1v, Nat.add_sub_cancel]
          · rcases hcnt c hc with ⟨v, hcv, h1v, hccnt⟩
            rw [if_neg hcc]
            refine ⟨v, hcv, h1v, ?_⟩
            rw [auditCount_eq, ht2,
              count_append_other s.history r c.id (by
                simp only [hrid, hid]
                simpa using fun hcon => hcc (by simp [hcon]))]
            exact hccnt
  | deleteAgent aid =>
      refine ⟨?_, ?_, ?_⟩
      · exact List.Nodup.sublist
          (List.Sublist.map (fun a => a.id) (List.filter_sublist s.agents)) hnd
      · intro rr hrr
        have hmemh := List.mem_of_mem_filter hrr
        have hpred := List.of_mem_filter hrr
        rcases List.mem_map.mp (href rr hmemh) with ⟨b, hb, hbid⟩
        refine List.mem_map.mpr ⟨b, List.mem_filter.mpr ⟨hb, ?_⟩, hbid⟩
        rw [hbid]
        exact hpred
      · intro b hb
        have hmema := List.mem_of_mem_filter hb
        have hpred := List.of_mem_filter hb
        rcases hcnt b hmema with ⟨v, hbv, h1v, hbcnt⟩
        refine ⟨v, hbv, h1v, ?_⟩
        rw [auditCount_eq]
        show ((List.filter (fun x => !(x.agent_id == aid)) s.history).filter
          (fun x => x.agent_id == b.id)).length = v - 1
        rw [List.filter_comm]
        have : List.filter (fun x => !(x.agent_id == aid))
            (List.filter (fun x => x.agent_id == b.id) s.history) =
            List.filter (fun x => x.agent_id == b.id) s.history := by
          refine List.filter_eq_self.mpr (fun x hx => ?_)
          have hxb := List.of_mem_filter hx
          have hxbeq : x.agent_id = b.id := eq_of_beq hxb
          rw [hxbeq]
          exact hpred
        rw [this]
        exact hbcnt
  | createSubAgent sa hfresh hconf hcheck =>
      exact ⟨hnd, href, hcnt⟩
  | updateSubAgent old proposed hmem hid hcheck =>
      exact ⟨hnd, href, hcnt⟩
  | deleteSubAgent said =>
      exact ⟨hnd, href, hcnt⟩

/-- Claim C2 (amended) — in every state reachable from the empty database
by accepted application-level mutations (creates taking the `version`
column default, trigger-mediated updates whose `SET` clause does not
touch `version`, cascading deletes), every agent's audit-record count
equals its version counter minus 1.  The amendment excludes the direct
`INSERT` into `agent_config_history` that RLS grants to admin callers,
which can break the equation (see the counterexample). -/
theorem version_counts_audit_records (s : EngineState)
    (h : Relation.ReflTransGen AppStep initState s) :
    ∀ a ∈ s.agents, ∃ v, a.version = some v ∧ auditCount s a.id = v - 1 := by
  have hg : goodState s := by
    induction h with
    | refl => exact goodState_init
    | tail hsteps hstep ih => exact appStep_preserves_goodState hstep ih
  exact fun a ha => (hg.2.2 a ha).imp (fun v hv => ⟨hv.1, hv.2.2⟩)

/-- Claim C2 witness — after creating `demoAgent` in the empty database its
version is 1 and its audit history is empty. -/
theorem version_counts_audit_records_witness :
    ∃ v, demoAgent.version = some v ∧
      auditCount demoStateOneAgent demoAgent.id = v - 1 :=
  version_counts_audit_records demoStateOneAgent
    (Relation.ReflTransGen.single
      (AppStep.createAgent initState demoAgent rfl
        (fun b hb => absurd hb (List.not_mem_nil b)) (by decide) (by decide)))
    demoAgent (List.mem_singleton.mpr rfl)

/-- Claim C2 counterexample — the claim quantifies over every reachable
state of the system, and the RLS policy `"Admins can insert config
history"` makes a *direct* history insert a caller-invocable operation:
from the empty database, create `demoAgent` (version 1, zero records),
then let admin 1 insert `demoDirectRecord` directly.  The resulting state
is reachable, yet the agent's record count is 1 while `version - 1 = 0`. -/
theorem version_audit_mismatch_reachable :
    Relation.ReflTransGen (Step demoProfiles) initState demoStateDirectHistory ∧
    demoStateDirectHistory.agents = [demoAgent] ∧
    demoAgent.version = some 1 ∧
    auditCount demoStateDirectHistory demoAgent.id = 1 ∧
    ¬ (∀ a ∈ demoStateDirectHistory.agents,
        auditCount demoStateDirectHistory a.id = a.version.getD 0 - 1) := by
  refine ⟨?_, rfl, rfl, by decide, ?_⟩
  · have h1 : Step demoProfiles initState demoStateOneAgent :=
      Step.app (AppStep.createAgent initState demoAgent rfl
        (fun b hb => absurd hb (List.not_mem_nil b)) (by decide) (by decide))
    have h2 : Step demoProfiles demoStateOneAgent demoStateDirectHistory :=
      Step.insertHistory demoStateOneAgent 1 demoDirectRecord (by decide)
        ⟨demoAgent, List.mem_singleton.mpr rfl, rfl⟩
    exact Relation.ReflTransGen.head h1 (Relation.ReflTransGen.single h2)
  · intro hall
    have hinst := hall demoAgent (List.mem_singleton.mpr rfl)
    exact absurd hinst (by decide)

/-- Claim C4 counterexample — the claim says no caller-invocable operation
creates an audit record directly, but the RLS policy `"Admins can insert
config history"` (never dropped by the consolidated fix) admits a direct
`INSERT` by any admin: admin 1 passes the policy check, and the resulting
step appends an audit record while leaving every agent row untouched —
an audit record that is not a side effect of any mutation. -/
theorem direct_history_insert_possible :
    admins_can_insert_config_history demoProfiles 1 = true ∧
    Step demoProfiles demoStateOneAgent demoStateDirectHistory ∧
    demoStateDirectHistory.agents = demoStateOneAgent.agents ∧
    demoStateDirectHistory.history.length = demoStateOneAgent.history.length + 1 := by
  refine ⟨by decide, ?_, rfl, rfl⟩
  exact Step.insertHistory demoStateOneAgent 1 demoDirectRecord (by decide)
    ⟨demoAgent, List.mem_singleton.mpr rfl, rfl⟩

/-- Claim C4 (amended) — audit records arise only from accepted mutations
*or* from the direct insert that RLS explicitly grants to admin callers:
a caller with no admin profile row fails the insert policy, and under
every application-level mutation each audit record in the post-state was
already present or is the output of the `track_agent_changes` trigger for
an existing row. -/
theorem audit_record_creation_paths (profiles : List Profile) (uid : Nat)
    (s s' : EngineState) :
    ((∀ p ∈ profiles, p.id = uid → p.role ≠ AppRole.admin) →
      admins_can_insert_config_history profiles uid = false) ∧
    (AppStep s s' → ∀ r ∈ s'.history, r ∈ s.history ∨
      ∃ old proposed, old ∈ s.agents ∧
        (track_agent_config_change old proposed).2 = some r) := by
  constructor
  · intro h
    refine List.any_eq_false.mpr (fun p hp hcon => ?_)
    have hcon' : p.id = uid ∧ p.role = AppRole.admin := by simpa using hcon
    exact h p hp hcon'.1 hcon'.2
  · intro hstep r hr
    cases hstep with
    | createAgent a hv hfresh hconf hcheck => exact Or.inl hr
    | updateAgent old proposed hmem hid hv hcheck =>
        rcases List.mem_append.mp hr with hh | hh
        · exact Or.inl hh
        · refine Or.inr ⟨old, proposed, hmem, ?_⟩
          rcases ho : (track_agent_config_change old proposed).2 with _ | rr
          · rw [ho] at hh
            exact absurd hh (by simp)
          · rw [ho] at hh
            have hre : r = rr := by simpa using hh
            subst hre
            first
            | exact ho
            | rfl
    | deleteAgent aid => exact Or.inl (List.mem_of_mem_filter hr)
    | createSubAgent sa hfresh hconf hcheck => exact Or.inl hr
    | updateSubAgent old proposed hmem hid hcheck => exact Or.inl hr
    | deleteSubAgent said => exact Or.inl hr

/-- Claim C4 witness — profile 3 is a member, not an admin, so the direct
history-insert policy denies it. -/
theorem audit_record_creation_paths_witness :
    admins_can_insert_config_history demoProfiles 3 = false :=
  (audit_record_creation_paths demoProfiles 3 initState initState).1 (by decide)

/-- Claim C8 counterexample — the claim asserts every successfully created
entity (agents *and* sub-agents) has version 1, but the `sub_agents`
table carries no `version` column at all, so a created sub-agent has no
version counter to equal 1. -/
theorem sub_agents_lack_version_column :
    ¬ ("version" ∈ subAgentsColumns) := by decide

/-- Claim C8 (amended) — `create` fails with `Conflict` exactly when the
slug already exists within scope — `(organization_id, slug)` for agents,
`(parent_agent_id, slug)` for sub-agents — provided the row passes its
bounds checks (Postgres raises `CHECK` violations before consulting the
unique index); a successful agent create stores the row as given, whose
`version` column default is 1.  Sub-agents carry no version counter. -/
theorem create_slug_conflict_exact (agents : List Agent) (a : Agent)
    (subs : List SubAgent) (sa : SubAgent)
    (ha : agents_row_check a = true) (hsa : sub_agents_row_check sa = true) :
    (insertAgentRow agents a = Except.error GovError.conflict ↔
      agents_slug_conflict agents a.organization_id a.slug = true) ∧
    (insertSubAgentRow subs sa = Except.error GovError.conflict ↔
      sub_agents_slug_conflict subs sa.parent_agent_id sa.slug = true) ∧
    (agents_slug_conflict agents a.organization_id a.slug = false →
      a.version = some 1 →
      insertAgentRow agents a = Except.ok (a :: agents) ∧ a.version = some 1) := by
  refine ⟨?_, ?_, ?_⟩
  · by_cases hc : agents_slug_conflict agents a.organization_id a.slug = true
    · simp [insertAgentRow, ha, hc]
    · simp [insertAgentRow, ha, hc]
  · by_cases hc : sub_agents_slug_conflict subs sa.parent_agent_id sa.slug = true
    · simp [insertSubAgentRow, hsa, hc]
    · simp [insertSubAgentRow, hsa, hc]
  · intro hc hv
    exact ⟨by simp [insertAgentRow, ha, hc], hv⟩

/-- Claim C8 witness — creating `demoSlugClash`, whose `(organization,
slug)` pair collides with the stored `demoAgent`, fails with `Conflict`. -/
theorem create_slug_conflict_exact_witness :
    insertAgentRow [demoAgent] demoSlugClash = Except.error GovError.conflict :=
  (create_slug_conflict_exact [demoAgent] demoSlugClash [] demoSubAgent
    (by decide) (by decide)).1.mpr (by decide)

end MultiAgentDev
